import Mathlib

/-
Verification of the Cobbl SDK client library (TypeScript source) against its
natural-language specification.

The development shallowly embeds the SDK's error-classification layer
(src/errors.ts: CobblError, handleErrorResponse), the feedback validators
(src/validation.ts) and the two client facades (CobblAdminClient.runPrompt,
CobblPublicClient.createFeedback / updateFeedback).  JavaScript runtime
behaviour that the source relies on is modelled explicitly: object property
lookup, truthiness of the || operator, String() coercion, object spread
with later keys overriding earlier ones, JSON.stringify dropping
undefined-valued keys, and the TypeError thrown by property access on null.
-/

namespace Cobbl

/-- A JSON value, as produced by response.json() / consumed by
JSON.stringify.  undefined is represented by Option.none at use sites. -/
inductive Json where
  | null
  | bool (b : Bool)
  | num (n : Int)
  | str (s : String)
  | arr (elems : List Json)
  | obj (fields : List (String × Json))

/-- JS object-literal field assignment: assigning to a key that already
exists overwrites its value in place; a new key is appended at the end. -/
def setField (kvs : List (String × Json)) (k : String) (v : Json) :
    List (String × Json) :=
  if kvs.any (fun p => p.1 == k) then
    kvs.map (fun p => match p.1 == k with | true => (k, v) | false => p)
  else
    kvs ++ [(k, v)]

/-- The own enumerable properties of a JS object built from a field list:
duplicate keys collapse, the last occurrence wins (both JSON.parse and
object-literal evaluation behave this way). -/
def objProps (kvs : List (String × Json)) : List (String × Json) :=
  kvs.foldl (fun acc p => setField acc p.1 p.2) []

/-- Property lookup on a JS object given by a field list. -/
def jlookup (kvs : List (String × Json)) (k : String) : Option Json :=
  List.lookup k (objProps kvs)

/-- JS property access v[k] for a value that is not null/undefined:
objects look the key up, primitives and arrays have no such named
property (the keys used by the SDK are non-numeric), giving undefined. -/
def getProp (v : Json) (k : String) : Option Json :=
  match v with
  | .obj kvs => jlookup kvs k
  | _ => none

/-- JS truthiness of a possibly-undefined value: undefined, null, false,
0 and the empty string are falsy. -/
def truthy : Option Json → Bool
  | none => false
  | some .null => false
  | some (.bool b) => b
  | some (.num n) => n != 0
  | some (.str s) => s != ""
  | some (.arr _) => true
  | some (.obj _) => true

/-- JS a || b on possibly-undefined values. -/
def jsOr (a b : Option Json) : Option Json :=
  if truthy a then a else b

/-- JS x || d where d is a (truthy) literal default. -/
def jsOrDefault (a : Option Json) (d : Json) : Json :=
  match a with
  | some v => if truthy (some v) then v else d
  | none => d

mutual

/-- JS String() coercion of a JSON value, as applied by the Error
constructor to its message argument. -/
def jsToString : Json → String
  | .null => "null"
  | .bool true => "true"
  | .bool false => "false"
  | .num n => toString n
  | .str s => s
  | .arr elems => jsArrayToString elems
  | .obj _ => "[object Object]"

/-- Array.prototype.toString: elements joined with commas. -/
def jsArrayToString : List Json → String
  | [] => ""
  | [x] => jsElemToString x
  | x :: rest => jsElemToString x ++ "," ++ jsArrayToString rest

/-- Inside Array.prototype.join, null elements render as empty; any
other element is String()-coerced. -/
def jsElemToString : Json → String
  | .null => ""
  | .bool true => "true"
  | .bool false => "false"
  | .num n => toString n
  | .str s => s
  | .arr elems => jsArrayToString elems
  | .obj _ => "[object Object]"

end

/-- Error codes of the SDK (src/errors.ts, type CobblErrorCode). -/
inductive CobblErrorCode where
  | INVALID_CONFIG
  | INVALID_REQUEST
  | UNAUTHORIZED
  | FORBIDDEN
  | NOT_FOUND
  | ARCHIVED
  | RATE_LIMIT_EXCEEDED
  | SERVER_ERROR
  | NETWORK_ERROR
  | API_ERROR
deriving DecidableEq

/-- The CobblError class (src/errors.ts): message, code and optional
details.  details = none models the undefined (absent) details. -/
structure CobblError where
  message : String
  code : CobblErrorCode
  details : Option Json := none

/-- A value thrown by JS code: either a CobblError instance, a standard
Error that is not a CobblError (TypeError, SyntaxError, DOMException,
fetch failures) carrying its message, or a non-Error value. -/
inductive JsThrown where
  | cobbl (e : CobblError)
  | jsError (message : String)
  | other

/-- Whether a thrown value is a CobblError instance
(the `error instanceof CobblError` test of the catch clauses). -/
def JsThrown.isTyped : JsThrown → Bool
  | .cobbl _ => true
  | _ => false

/-- An HTTP response as seen by the SDK: status, statusText, and the
outcome of response.json() — .error m models a body that fails to parse
(the parse rejects with a SyntaxError whose message is m), .ok j a body
parsing to the JSON value j. -/
structure Response where
  status : Nat
  statusText : String
  body : Except String Json

/-- fetch Response.ok: status in the inclusive range 200–299. -/
def Response.isOk (r : Response) : Bool :=
  200 ≤ r.status && r.status < 300

/-- Message of the TypeError raised by reading a property off null
(the exact text is host-defined; the model fixes a representative one). -/
def nullReadMessage : String := "Cannot read properties of null"

/-- JS spread of a possibly-undefined value into an object literal:
undefined, null, booleans and numbers contribute nothing; strings and
arrays contribute index-keyed properties; objects contribute their own
enumerable properties. -/
def spreadProps : Option Json → List (String × Json)
  | none => []
  | some .null => []
  | some (.bool _) => []
  | some (.num _) => []
  | some (.str s) => s.toList.enum.map (fun p => (toString p.1, Json.str (String.singleton p.2)))
  | some (.arr xs) => xs.enum.map (fun p => (toString p.1, p.2))
  | some (.obj kvs) => objProps kvs

/-- Evaluation of an object literal that starts from the fields in base
and then spreads the value v, later assignments overriding earlier
keys in place. -/
def spreadInto (base : List (String × Json)) (v : Option Json) :
    List (String × Json) :=
  (spreadProps v).foldl (fun acc p => setField acc p.1 p.2) base

/-- handleErrorResponse (src/errors.ts): classify a failure response into
a thrown value.  The source function always throws (its TS result type is
Promise of never); the model returns the thrown value.  A body parsing to
JSON null makes the source read null.error, which throws a TypeError
rather than a CobblError. -/
def handleErrorResponse (response : Response) : JsThrown :=
  match response.body with
  | .error _ =>
      .cobbl { message := "HTTP " ++ toString response.status ++ ": " ++ response.statusText
               code := .API_ERROR
               details := some (.obj [("status", .num response.status)]) }
  | .ok .null => .jsError nullReadMessage
  | .ok errorData =>
      let message := jsToString (jsOrDefault
        (jsOr (getProp errorData "error") (getProp errorData "message"))
        (.str "Unknown error"))
      let details := getProp errorData "details"
      match response.status with
      | 400 => .cobbl { message, code := .INVALID_REQUEST, details }
      | 401 => .cobbl { message, code := .UNAUTHORIZED, details }
      | 403 => .cobbl { message, code := .FORBIDDEN, details }
      | 404 => .cobbl { message, code := .NOT_FOUND, details }
      | 410 => .cobbl { message, code := .ARCHIVED, details }
      | 429 => .cobbl { message, code := .RATE_LIMIT_EXCEEDED, details }
      | 500 | 502 | 503 | 504 => .cobbl { message, code := .SERVER_ERROR, details }
      | _ => .cobbl { message
                      code := .API_ERROR
                      details := some (.obj (spreadInto
                        [("status", .num response.status)] details)) }

/-- JS String.prototype.trim, modelled over the character list so that
it computes by structural recursion (the model covers the ASCII
whitespace characters; the source strings never contain the more exotic
Unicode whitespace JS also strips). -/
def jsTrim (s : String) : String :=
  String.mk (((s.data.dropWhile Char.isWhitespace).reverse.dropWhile
    Char.isWhitespace).reverse)

/-- JS falsiness of a possibly-undefined string (the !x test):
undefined and the empty string are falsy. -/
def jsStrFalsy : Option String → Bool
  | none => true
  | some s => s == ""

/-- CreateFeedbackRequest (src/types.ts).  Fields are modelled as they
can arrive at runtime: runId possibly undefined (the validator defends
against it), helpful an arbitrary runtime string checked against the two
enum literals, userFeedback optional. -/
structure CreateFeedbackRequest where
  runId : Option String
  helpful : Option String
  userFeedback : Option String

/-- UpdateFeedbackRequest (src/types.ts): no runId. -/
structure UpdateFeedbackRequest where
  helpful : Option String
  userFeedback : Option String

/-- VALID_HELPFUL_VALUES (src/validation.ts). -/
def VALID_HELPFUL_VALUES : List String := ["helpful", "not_helpful"]

/-- validateCreateFeedback (src/validation.ts). -/
def validateCreateFeedback (feedback : CreateFeedbackRequest) : Option String :=
  if jsStrFalsy feedback.runId || jsTrim (feedback.runId.getD "") == "" then
    some "runId is required"
  else if (match feedback.helpful with
           | some h => !VALID_HELPFUL_VALUES.contains h
           | none => false) then
    some "helpful must be \"helpful\" or \"not_helpful\""
  else if (match feedback.userFeedback with
           | some u => jsTrim u == ""
           | none => false) then
    some "userFeedback cannot be empty"
  else if feedback.helpful.isNone && feedback.userFeedback.isNone then
    some "At least one of helpful or userFeedback is required"
  else
    none

/-- validateUpdateFeedback (src/validation.ts): the same rules minus the
runId check. -/
def validateUpdateFeedback (update : UpdateFeedbackRequest) : Option String :=
  if (match update.helpful with
      | some h => !VALID_HELPFUL_VALUES.contains h
      | none => false) then
    some "helpful must be \"helpful\" or \"not_helpful\""
  else if (match update.userFeedback with
           | some u => jsTrim u == ""
           | none => false) then
    some "userFeedback cannot be empty"
  else if update.helpful.isNone && update.userFeedback.isNone then
    some "At least one of helpful or userFeedback is required"
  else
    none

/-- CobblConfig (src/types.ts) as it can arrive at runtime: apiKey
possibly undefined (the constructor defends), baseUrl optional. -/
structure CobblConfig where
  apiKey : Option String
  baseUrl : Option String

/-- Default production origin. -/
def defaultBaseUrl : String := "https://api.cobbl.ai"

/-- Resolution of config.baseUrl?.trim() || defaultBaseUrl. -/
def resolveBaseUrl (baseUrl : Option String) : String :=
  match baseUrl.map jsTrim with
  | none => defaultBaseUrl
  | some t => if t == "" then defaultBaseUrl else t

/-- The constructed admin client state: immutable apiKey (stored as
given, untrimmed) and resolved baseUrl. -/
structure CobblAdminClient where
  apiKey : String
  baseUrl : String

/-- The CobblAdminClient constructor (src/admin.ts): rejects an absent
or blank-after-trim apiKey with INVALID_CONFIG, stores the apiKey as
given and the resolved baseUrl. -/
def CobblAdminClient.make (config : CobblConfig) :
    Except CobblError CobblAdminClient :=
  if jsStrFalsy config.apiKey || jsTrim (config.apiKey.getD "") == "" then
    .error { message := "API key is required", code := .INVALID_CONFIG }
  else
    .ok { apiKey := config.apiKey.getD "", baseUrl := resolveBaseUrl config.baseUrl }

/-- CobblPublicConfig (src/public.ts): baseUrl only. -/
structure CobblPublicConfig where
  baseUrl : Option String

/-- The constructed public client state. -/
structure CobblPublicClient where
  baseUrl : String

/-- The CobblPublicClient constructor (src/public.ts). -/
def CobblPublicClient.make (config : CobblPublicConfig) : CobblPublicClient :=
  { baseUrl := resolveBaseUrl config.baseUrl }

/-- An outbound HTTP request as assembled by makeRequest: full URL,
method, headers, and the JSON.stringify-ed body represented as the JSON
value actually serialized. -/
structure HttpRequest where
  url : String
  method : String
  headers : List (String × String)
  body : Json

/-- The request makeRequest (src/admin.ts) issues: baseUrl ++ path,
Content-Type plus Authorization Bearer header with the stored
(untrimmed) apiKey. -/
def CobblAdminClient.requestFor (c : CobblAdminClient) (path method : String)
    (body : Json) : HttpRequest :=
  { url := c.baseUrl ++ path
    method := method
    headers := [("Content-Type", "application/json"),
                ("Authorization", "Bearer " ++ c.apiKey)]
    body := body }

/-- The request makeRequest (src/public.ts) issues: no Authorization. -/
def CobblPublicClient.requestFor (c : CobblPublicClient) (path method : String)
    (body : Json) : HttpRequest :=
  { url := c.baseUrl ++ path
    method := method
    headers := [("Content-Type", "application/json")]
    body := body }

/-- Outcome of the fetch call: it either rejects (network failure,
connection refused, timeout-driven abort, ...) with a thrown value, or
resolves to a response. -/
inductive TransportResult where
  | fail (thrown : JsThrown)
  | ok (response : Response)

/-- Realism condition on a transport outcome: fetch rejections are
TypeError / AbortError instances, never CobblError instances. -/
def TransportResult.fetchRealistic : TransportResult → Bool
  | .fail thrown => !thrown.isTyped
  | .ok _ => true

/-- JSON.stringify on an object whose values may be undefined:
undefined-valued keys are dropped from the serialized output. -/
def stringifyFields (fields : List (String × Option Json)) :
    List (String × Json) :=
  fields.filterMap (fun p => p.2.map (fun v => (p.1, v)))

/-- The success shape runPrompt reads off the parsed body
(data.runId, data.output, ...; missing fields are undefined). -/
structure RunPromptResponse where
  runId : Option Json
  output : Option Json
  tokenUsage : Option Json
  renderedPrompt : Option Json
  promptVersion : Option Json

/-- The try-block of runPrompt after the request is issued, as a function
of the transport outcome: a fetch rejection propagates the thrown value;
a non-ok response throws whatever handleErrorResponse throws; on an ok
response, a body that fails to parse rejects with its SyntaxError, a body
parsing to null makes data.runId throw a TypeError, and otherwise the
five fields are read off the parsed body. -/
def runPromptTry (t : TransportResult) : Except JsThrown RunPromptResponse :=
  match t with
  | .fail thrown => .error thrown
  | .ok r =>
      if r.isOk then
        match r.body with
        | .error m => .error (.jsError m)
        | .ok .null => .error (.jsError nullReadMessage)
        | .ok data =>
            .ok { runId := getProp data "runId"
                  output := getProp data "output"
                  tokenUsage := getProp data "tokenUsage"
                  renderedPrompt := getProp data "renderedPrompt"
                  promptVersion := getProp data "promptVersion" }
      else
        .error (handleErrorResponse r)

/-- The success shape of the two feedback methods: data.id, data.message. -/
structure FeedbackResponse where
  id : Option Json
  message : Option Json

/-- The try-block of createFeedback / updateFeedback after the request is
issued, as a function of the transport outcome. -/
def feedbackTry (t : TransportResult) : Except JsThrown FeedbackResponse :=
  match t with
  | .fail thrown => .error thrown
  | .ok r =>
      if r.isOk then
        match r.body with
        | .error m => .error (.jsError m)
        | .ok .null => .error (.jsError nullReadMessage)
        | .ok data => .ok { id := getProp data "id", message := getProp data "message" }
      else
        .error (handleErrorResponse r)

/-- The catch clause shared (textually) by the three client methods:
a CobblError is re-raised unchanged; anything else is wrapped once as
NETWORK_ERROR with the Failed-to-operation message, using the underlying
message for standard Errors and the literal Unknown error otherwise. -/
def wrapCatch {α : Type} (operation : String) (result : Except JsThrown α) :
    Except CobblError α :=
  match result with
  | .ok v => .ok v
  | .error (.cobbl e) => .error e
  | .error (.jsError m) =>
      .error { message := "Failed to " ++ operation ++ ": " ++ m
               code := .NETWORK_ERROR }
  | .error .other =>
      .error { message := "Failed to " ++ operation ++ ": Unknown error"
               code := .NETWORK_ERROR }

/-- runPrompt (src/admin.ts), as a function of the call inputs and the
transport outcome.  The first component is the HTTP request issued
(none when validation rejects the call before any network I/O), the
second the settled result. -/
def CobblAdminClient.runPrompt (c : CobblAdminClient)
    (promptSlug : Option String) (input : Json) (t : TransportResult) :
    Option HttpRequest × Except CobblError RunPromptResponse :=
  if jsStrFalsy promptSlug || jsTrim (promptSlug.getD "") == "" then
    (none, .error { message := "promptSlug is required", code := .INVALID_REQUEST })
  else
    (some (c.requestFor "/admin/v1/prompt/run" "POST"
            (.obj [("promptSlug", .str (jsTrim (promptSlug.getD ""))),
                   ("input", input)])),
     wrapCatch "run prompt" (runPromptTry t))

/-- createFeedback (src/public.ts). -/
def CobblPublicClient.createFeedback (c : CobblPublicClient)
    (feedback : CreateFeedbackRequest) (t : TransportResult) :
    Option HttpRequest × Except CobblError FeedbackResponse :=
  match validateCreateFeedback feedback with
  | some validationError =>
      (none, .error { message := validationError, code := .INVALID_REQUEST })
  | none =>
      (some (c.requestFor "/public/v1/feedback" "POST"
              (.obj (stringifyFields
                [("runId", some (.str (jsTrim (feedback.runId.getD "")))),
                 ("helpful", feedback.helpful.map Json.str),
                 ("userFeedback", (feedback.userFeedback.map jsTrim).map Json.str)]))),
       wrapCatch "create feedback" (feedbackTry t))

/-- updateFeedback (src/public.ts). -/
def CobblPublicClient.updateFeedback (c : CobblPublicClient)
    (id : Option String) (update : UpdateFeedbackRequest) (t : TransportResult) :
    Option HttpRequest × Except CobblError FeedbackResponse :=
  if jsStrFalsy id || jsTrim (id.getD "") == "" then
    (none, .error { message := "id is required", code := .INVALID_REQUEST })
  else
    match validateUpdateFeedback update with
    | some validationError =>
        (none, .error { message := validationError, code := .INVALID_REQUEST })
    | none =>
        (some (c.requestFor ("/public/v1/feedback/" ++ jsTrim (id.getD "")) "PATCH"
                (.obj (stringifyFields
                  [("helpful", update.helpful.map Json.str),
                   ("userFeedback", (update.userFeedback.map jsTrim).map Json.str)]))),
         wrapCatch "update feedback" (feedbackTry t))

/-! Spec-side definitions, written from the wording of the claims, to be
compared with the definitions embedded from the source. -/

/-- The status-to-code table of spec section 4.1, as the claims state it. -/
def specStatusCode (status : Nat) : CobblErrorCode :=
  if status = 400 then .INVALID_REQUEST
  else if status = 401 then .UNAUTHORIZED
  else if status = 403 then .FORBIDDEN
  else if status = 404 then .NOT_FOUND
  else if status = 410 then .ARCHIVED
  else if status = 429 then .RATE_LIMIT_EXCEEDED
  else if status = 500 ∨ status = 502 ∨ status = 503 ∨ status = 504 then .SERVER_ERROR
  else .API_ERROR

/-- Whether a status is one of the ten explicitly tabulated ones. -/
def statusMapped (status : Nat) : Bool :=
  ([400, 401, 403, 404, 410, 429, 500, 502, 503, 504] : List Nat).contains status

/-- Message extraction as amended: the String coercion of the body's
error field if present and truthy, else of the message field if present
and truthy, else the literal Unknown error. -/
def specErrMessage (body : Json) : String :=
  match getProp body "error" with
  | some ev =>
      if truthy (some ev) then jsToString ev
      else
        match getProp body "message" with
        | some mv => if truthy (some mv) then jsToString mv else "Unknown error"
        | none => "Unknown error"
  | none =>
      match getProp body "message" with
      | some mv => if truthy (some mv) then jsToString mv else "Unknown error"
      | none => "Unknown error"

/-- validateCreateFeedback as the claim states it: four rules checked in
a fixed order, the first violated rule giving its reason string. -/
def specValidateCreateFeedback (f : CreateFeedbackRequest) : Option String :=
  if f.runId.isNone || jsTrim (f.runId.getD "") == "" then
    some "runId is required"
  else if (match f.helpful with
           | some h => !(h == "helpful" || h == "not_helpful")
           | none => false) then
    some "helpful must be \"helpful\" or \"not_helpful\""
  else if (match f.userFeedback with
           | some u => jsTrim u == ""
           | none => false) then
    some "userFeedback cannot be empty"
  else if f.helpful.isNone && f.userFeedback.isNone then
    some "At least one of helpful or userFeedback is required"
  else
    none

/-- Whether a settled client result is an error carrying NETWORK_ERROR. -/
def isNetworkError {α : Type} : Except CobblError α → Bool
  | .error e => decide (e.code = .NETWORK_ERROR)
  | .ok _ => false

/-! Lemmas about JS object-literal assignment (setField) and lookup. -/

theorem lookup_map_replace (l : List (String × Json)) (k : String) (v : Json)
    (h : l.any (fun p => p.1 == k) = true) :
    List.lookup k (l.map (fun p => match p.1 == k with | true => (k, v) | false => p)) = some v := by
  induction l with
  | nil => simp at h
  | cons p ps ih =>
      cases hc : (p.1 == k) with
      | true =>
          have hk : k = p.1 := Eq.symm (by simpa using hc)
          simp [List.lookup, hc, hk]
      | false =>
          have hps : ps.any (fun p => p.1 == k) = true := by
            simpa [List.any_cons, hc] using h
          have hk : (k == p.1) = false := by
            simp only [beq_eq_false_iff_ne] at hc ⊢
            exact Ne.symm hc
          simp [List.lookup, hc, hk, ih hps]

theorem lookup_map_replace_ne (l : List (String × Json)) (k k2 : String) (v : Json)
    (h : k2 ≠ k) :
    List.lookup k2 (l.map (fun p => match p.1 == k with | true => (k, v) | false => p)) =
      List.lookup k2 l := by
  induction l with
  | nil => simp
  | cons p ps ih =>
      cases hc : (p.1 == k) with
      | true =>
          have hp : p.1 = k := by simpa using hc
          have hk2 : (k2 == k) = false := by simp [h]
          have hk3 : (k2 == p.1) = false := by simp [hp, h]
          simp [List.lookup, hc, hk2, hk3, ih]
      | false => simp [List.lookup, hc, ih]

theorem lookup_append_new (l : List (String × Json)) (k : String) (v : Json)
    (h : l.any (fun p => p.1 == k) = false) :
    List.lookup k (l ++ [(k, v)]) = some v := by
  induction l with
  | nil => simp [List.lookup]
  | cons p ps ih =>
      simp only [List.any_cons, Bool.or_eq_false_iff] at h
      have hk : (k == p.1) = false := by
        have h1 := h.1
        simp only [beq_eq_false_iff_ne] at h1 ⊢
        exact Ne.symm h1
      simp only [List.cons_append, List.lookup, hk]
      exact ih h.2

theorem lookup_append_other (l : List (String × Json)) (k k2 : String) (v : Json)
    (h : k2 ≠ k) :
    List.lookup k2 (l ++ [(k, v)]) = List.lookup k2 l := by
  induction l with
  | nil =>
      have hb : (k2 == k) = false := by simp [h]
      simp [List.lookup, hb]
  | cons p ps ih =>
      cases hc : (k2 == p.1) with
      | true => simp [List.lookup, hc]
      | false => simp [List.lookup, hc, ih]

theorem lookup_setField_self (l : List (String × Json)) (k : String) (v : Json) :
    List.lookup k (setField l k v) = some v := by
  unfold setField
  by_cases h : l.any (fun p => p.1 == k) = true
  · simp only [h, if_true]
    exact lookup_map_replace l k v h
  · have h2 : l.any (fun p => p.1 == k) = false := by
      cases ha : l.any (fun p => p.1 == k)
      · rfl
      · exact absurd ha h
    simp only [h2, Bool.false_eq_true, if_false]
    exact lookup_append_new l k v h2

theorem lookup_setField_ne (l : List (String × Json)) (k k2 : String) (v : Json)
    (h : k2 ≠ k) :
    List.lookup k2 (setField l k v) = List.lookup k2 l := by
  unfold setField
  by_cases hc : l.any (fun p => p.1 == k) = true
  · simp only [hc, if_true]
    exact lookup_map_replace_ne l k k2 v h
  · have h2 : l.any (fun p => p.1 == k) = false := by
      cases ha : l.any (fun p => p.1 == k)
      · rfl
      · exact absurd ha hc
    simp only [h2, Bool.false_eq_true, if_false]
    exact lookup_append_other l k k2 v h

theorem lookup_none_of_not_mem_keys (l : List (String × Json)) (k : String)
    (h : k ∉ l.map Prod.fst) :
    List.lookup k l = none := by
  induction l with
  | nil => rfl
  | cons p ps ih =>
      simp only [List.map, List.mem_cons, not_or] at h
      have : (k == p.1) = false := by simp [h.1]
      simp [List.lookup, this, ih h.2]

/-- Lookup after folding a list of assignments with unique keys over a
base object: an assigned key wins, any other key falls through to base. -/
theorem lookup_foldl_setField (props : List (String × Json)) :
    ∀ (base : List (String × Json)) (k : String),
    (props.map Prod.fst).Nodup →
    List.lookup k (props.foldl (fun acc p => setField acc p.1 p.2) base) =
      (match List.lookup k props with
       | some v => some v
       | none => List.lookup k base) := by
  induction props with
  | nil => intro base k _; rfl
  | cons p ps ih =>
      intro base k h
      simp only [List.map, List.nodup_cons] at h
      simp only [List.foldl]
      rw [ih (setField base p.1 p.2) k h.2]
      by_cases hk : k = p.1
      · rw [hk, lookup_none_of_not_mem_keys ps p.1 h.1]
        have hl : List.lookup p.1 (p :: ps) = some p.2 := by simp [List.lookup]
        simp [hl, lookup_setField_self]
      · have hb : (k == p.1) = false := by simp [hk]
        have hl : List.lookup k (p :: ps) = List.lookup k ps := by
          simp [List.lookup, hb]
        rw [hl, lookup_setField_ne base p.1 k p.2 hk]

theorem keys_setField (l : List (String × Json)) (k : String) (v : Json) :
    (setField l k v).map Prod.fst =
      (if l.any (fun p => p.1 == k) then l.map Prod.fst
       else l.map Prod.fst ++ [k]) := by
  unfold setField
  by_cases h : l.any (fun p => p.1 == k) = true
  · simp only [h, if_true, List.map_map]
    apply List.map_congr_left
    intro p _
    by_cases hp : p.1 = k
    · have hb : (p.1 == k) = true := by simp [hp]
      simp [hb, hp]
    · have hb : (p.1 == k) = false := by simp [hp]
      simp [hb]
  · have h2 : l.any (fun p => p.1 == k) = false := by
      cases ha : l.any (fun p => p.1 == k)
      · rfl
      · exact absurd ha h
    simp [h2]

theorem nodup_keys_setField (l : List (String × Json)) (k : String) (v : Json)
    (h : (l.map Prod.fst).Nodup) :
    ((setField l k v).map Prod.fst).Nodup := by
  rw [keys_setField]
  by_cases hc : l.any (fun p => p.1 == k) = true
  · simpa [hc] using h
  · have h2 : l.any (fun p => p.1 == k) = false := by
      cases ha : l.any (fun p => p.1 == k)
      · rfl
      · exact absurd ha hc
    have hk : k ∉ l.map Prod.fst := by
      intro hmem
      rcases List.mem_map.mp hmem with ⟨p, hp, hfst⟩
      have : l.any (fun p => p.1 == k) = true :=
        List.any_eq_true.mpr ⟨p, hp, by simp [hfst]⟩
      rw [this] at h2; exact absurd h2 (by simp)
    simp only [h2, Bool.false_eq_true, if_false]
    exact List.Nodup.append h (List.nodup_singleton k)
      (by simpa [List.disjoint_singleton] using hk)

theorem nodup_keys_objProps (kvs : List (String × Json)) :
    ((objProps kvs).map Prod.fst).Nodup := by
  have main : ∀ (l acc : List (String × Json)), (acc.map Prod.fst).Nodup →
      ((l.foldl (fun acc p => setField acc p.1 p.2) acc).map Prod.fst).Nodup := by
    intro l
    induction l with
    | nil => intro acc h; exact h
    | cons p ps ih =>
        intro acc h
        exact ih (setField acc p.1 p.2) (nodup_keys_setField acc p.1 p.2 h)
  exact main kvs [] (by simp)

/-! Characterization of handleErrorResponse. -/

theorem errMessage_eq_spec (j : Json) :
    jsToString (jsOrDefault (jsOr (getProp j "error") (getProp j "message"))
      (.str "Unknown error")) = specErrMessage j := by
  cases hE : getProp j "error" with
  | some ev =>
      cases htE : truthy (some ev) with
      | true => simp [jsOr, jsOrDefault, specErrMessage, hE, htE]
      | false =>
          cases hM : getProp j "message" with
          | some mv =>
              cases htM : truthy (some mv) with
              | true => simp [jsOr, jsOrDefault, specErrMessage, hE, hM, htE, htM]
              | false => simp [jsOr, jsOrDefault, specErrMessage, hE, hM, htE, htM, jsToString]
          | none => simp [jsOr, jsOrDefault, specErrMessage, hE, hM, htE, jsToString]
  | none =>
      cases hM : getProp j "message" with
      | some mv =>
          have h1 : jsOr none (some mv) = some mv := by simp [jsOr, truthy]
          rw [h1]
          simp only [jsOrDefault, specErrMessage, hE, hM]
          cases htM : truthy (some mv) with
          | true => simp [htM]
          | false => simp [htM, jsToString]
      | none =>
          have h1 : jsOr (none : Option Json) none = none := by simp [jsOr, truthy]
          rw [h1]
          simp [jsOrDefault, specErrMessage, hE, hM, jsToString]

/-- On a body that parses to a non-null value, the classifier throws a
CobblError whose message follows the truthiness-based extraction, whose
code follows the status table, and whose details is the body's details
field for tabulated statuses and the spread-merged object otherwise. -/
theorem handleErrorResponse_ok_eq (st : Nat) (sx : String) (j : Json)
    (hnn : j ≠ Json.null) :
    handleErrorResponse ⟨st, sx, Except.ok j⟩ =
      .cobbl { message := specErrMessage j
               code := specStatusCode st
               details := if statusMapped st then getProp j "details"
                          else some (.obj (spreadInto
                            [("status", Json.num st)] (getProp j "details"))) } := by
  cases j with
  | null => exact absurd rfl hnn
  | bool b =>
      simp only [handleErrorResponse, errMessage_eq_spec]
      split <;> simp_all [specStatusCode, statusMapped]
  | num n =>
      simp only [handleErrorResponse, errMessage_eq_spec]
      split <;> simp_all [specStatusCode, statusMapped]
  | str s =>
      simp only [handleErrorResponse, errMessage_eq_spec]
      split <;> simp_all [specStatusCode, statusMapped]
  | arr xs =>
      simp only [handleErrorResponse, errMessage_eq_spec]
      split <;> simp_all [specStatusCode, statusMapped]
  | obj kvs =>
      simp only [handleErrorResponse, errMessage_eq_spec]
      split <;> simp_all [specStatusCode, statusMapped]

theorem specStatusCode_ne_network (st : Nat) :
    specStatusCode st ≠ .NETWORK_ERROR := by
  unfold specStatusCode
  split_ifs <;> simp

theorem specStatusCode_unmapped (st : Nat) (hm : statusMapped st = false) :
    specStatusCode st = .API_ERROR := by
  unfold specStatusCode
  split_ifs with h1 h2 h3 h4 h5 h6 h7
  · subst h1; exact absurd hm (by decide)
  · subst h2; exact absurd hm (by decide)
  · subst h3; exact absurd hm (by decide)
  · subst h4; exact absurd hm (by decide)
  · subst h5; exact absurd hm (by decide)
  · subst h6; exact absurd hm (by decide)
  · rcases h7 with h | h | h | h <;> (subst h; exact absurd hm (by decide))
  · rfl

theorem handleErrorResponse_cobbl_code (r : Response) (e : CobblError)
    (h : handleErrorResponse r = .cobbl e) : e.code ≠ .NETWORK_ERROR := by
  obtain ⟨st, sx, body⟩ := r
  cases body with
  | error m =>
      simp only [handleErrorResponse] at h
      injection h with h2
      rw [← h2]
      simp
  | ok j =>
      by_cases hnn : j = Json.null
      · subst hnn
        simp [handleErrorResponse] at h
      · rw [handleErrorResponse_ok_eq st sx j hnn] at h
        injection h with h2
        rw [← h2]
        exact specStatusCode_ne_network st

/-- C1: for every non-2xx response whose body parses to a non-null JSON
value, the classifier throws a CobblError whose code is exactly the one
the spec table assigns to the status; and the classifier always signals
failure with a CobblError except when the body parses to JSON null, in
which case reading the error field off null throws a built-in TypeError
instead of a typed error (the point on which the claim is amended). -/
theorem classifier_status_table :
    (∀ (r : Response) (j : Json), r.isOk = false → r.body = Except.ok j →
      j ≠ Json.null →
      ∃ e : CobblError, handleErrorResponse r = .cobbl e ∧
        e.code = specStatusCode r.status) ∧
    (∀ r : Response, (handleErrorResponse r).isTyped = true ∨
      (r.body = Except.ok Json.null ∧
        handleErrorResponse r = .jsError nullReadMessage)) := by
  constructor
  · intro r j hok hb hnn
    obtain ⟨st, sx, body⟩ := r
    cases hb
    exact ⟨_, handleErrorResponse_ok_eq st sx j hnn, rfl⟩
  · intro r
    obtain ⟨st, sx, body⟩ := r
    cases body with
    | error m => left; rfl
    | ok j =>
        by_cases hnn : j = Json.null
        · subst hnn; right; exact ⟨rfl, rfl⟩
        · left; rw [handleErrorResponse_ok_eq st sx j hnn]; rfl

/-- C1 witness: a 410 response with an object body is classified ARCHIVED
per the table. -/
theorem classifier_status_table_witness :
    ∃ e : CobblError,
      handleErrorResponse ⟨410, "Gone", Except.ok (Json.obj [])⟩ = .cobbl e ∧
      e.code = specStatusCode 410 :=
  classifier_status_table.1 ⟨410, "Gone", Except.ok (Json.obj [])⟩
    (Json.obj []) rfl rfl (by simp)

/-- C1 counterexample: a failure response whose body parses successfully
(to JSON null) makes the classifier throw a built-in TypeError, not a
TypedError — refuting that every input raises a TypedError. -/
theorem classifier_null_body_counterexample :
    (handleErrorResponse ⟨500, "Internal Server Error", Except.ok Json.null⟩).isTyped
      = false ∧
    handleErrorResponse ⟨500, "Internal Server Error", Except.ok Json.null⟩ =
      .jsError nullReadMessage :=
  ⟨rfl, rfl⟩

/-- C6: a failure response whose body fails to parse always yields
API_ERROR with message HTTP status: statusText and details containing
exactly the status, whatever the status code. -/
theorem classifier_unparseable_body :
    ∀ (r : Response) (m : String), r.body = Except.error m →
      handleErrorResponse r =
        .cobbl { message := "HTTP " ++ toString r.status ++ ": " ++ r.statusText
                 code := .API_ERROR
                 details := some (Json.obj [("status", Json.num r.status)]) } := by
  intro r m hb
  obtain ⟨st, sx, body⟩ := r
  cases hb
  rfl

/-- C6 witness: an unparseable body on a 500 response yields API_ERROR
(not SERVER_ERROR) with message HTTP 500: Internal Server Error. -/
theorem classifier_unparseable_body_witness :
    handleErrorResponse ⟨500, "Internal Server Error", Except.error "Unexpected token"⟩ =
      .cobbl { message := "HTTP 500: Internal Server Error"
               code := .API_ERROR
               details := some (Json.obj [("status", Json.num 500)]) } :=
  classifier_unparseable_body ⟨500, "Internal Server Error", Except.error "Unexpected token"⟩
    "Unexpected token" rfl

/-- C3 (amended): on a successfully parsed non-null body, the raised
error's message is the String coercion of the error field if present and
truthy, else of the message field if present and truthy, else the
literal Unknown error (a present but falsy error field — e.g. an empty
string — falls through, which is where the original claim fails); the
details is the body's details field for the ten tabulated statuses
(for any other status it is the merged object of C2). -/
theorem classifier_message_extraction :
    ∀ (r : Response) (j : Json), r.body = Except.ok j → j ≠ Json.null →
      ∃ e : CobblError, handleErrorResponse r = .cobbl e ∧
        e.message = specErrMessage j ∧
        (statusMapped r.status = true → e.details = getProp j "details") := by
  intro r j hb hnn
  obtain ⟨st, sx, body⟩ := r
  cases hb
  refine ⟨_, handleErrorResponse_ok_eq st sx j hnn, rfl, ?_⟩
  intro hm
  simp [hm]

/-- C3 witness: a 404 body with a truthy error field propagates it as
the message and its details field as details. -/
theorem classifier_message_extraction_witness :
    ∃ e : CobblError,
      handleErrorResponse ⟨404, "Not Found",
        Except.ok (Json.obj [("error", Json.str "Prompt not found")])⟩ = .cobbl e ∧
      e.message = specErrMessage (Json.obj [("error", Json.str "Prompt not found")]) ∧
      (statusMapped 404 = true →
        e.details = getProp (Json.obj [("error", Json.str "Prompt not found")]) "details") :=
  classifier_message_extraction ⟨404, "Not Found",
    Except.ok (Json.obj [("error", Json.str "Prompt not found")])⟩
    (Json.obj [("error", Json.str "Prompt not found")]) rfl (by simp)

/-- C3 counterexample: the body's error field is present (with value the
empty string), yet the raised message is taken from the message field —
the || fallback tests truthiness, not presence, so the claim as stated
fails. -/
theorem classifier_falsy_error_field_counterexample :
    getProp (Json.obj [("error", Json.str ""), ("message", Json.str "boom")]) "error"
      = some (Json.str "") ∧
    handleErrorResponse ⟨400, "Bad Request",
        Except.ok (Json.obj [("error", Json.str ""), ("message", Json.str "boom")])⟩ =
      .cobbl { message := "boom", code := .INVALID_REQUEST, details := none } ∧
    "boom" ≠ ("" : String) :=
  ⟨rfl, by rfl, by decide⟩

/-- C2 (amended): for an unmapped status with a successfully parsed body
whose details field is an object, the raised API_ERROR's details is the
object literal starting from the status key and then spreading the
server details, later assignments winning: the status key is always
present, but it holds the server-supplied value whenever the server
details has its own status field, and the response's HTTP status only
otherwise; every non-status key keeps its server value. -/
theorem classifier_api_error_merge :
    ∀ (r : Response) (j : Json) (kvs : List (String × Json)),
      r.body = Except.ok j → statusMapped r.status = false →
      getProp j "details" = some (Json.obj kvs) →
      ∃ (e : CobblError) (merged : List (String × Json)),
        handleErrorResponse r = .cobbl e ∧
        e.code = CobblErrorCode.API_ERROR ∧
        e.details = some (Json.obj merged) ∧
        List.lookup "status" merged =
          some ((jlookup kvs "status").getD (Json.num r.status)) ∧
        (∀ k, k ≠ "status" → List.lookup k merged = jlookup kvs k) := by
  intro r j kvs hb hm hd
  obtain ⟨st, sx, body⟩ := r
  cases hb
  have hnn : j ≠ Json.null := by
    intro h
    subst h
    simp [getProp] at hd
  refine ⟨_, spreadInto [("status", Json.num st)] (getProp j "details"),
    handleErrorResponse_ok_eq st sx j hnn, ?_, ?_, ?_, ?_⟩
  · exact specStatusCode_unmapped st hm
  · simp [hm]
  · rw [hd]
    show List.lookup "status"
      ((objProps kvs).foldl (fun acc p => setField acc p.1 p.2)
        [("status", Json.num st)]) = _
    rw [lookup_foldl_setField (objProps kvs) [("status", Json.num st)] "status"
      (nodup_keys_objProps kvs)]
    cases hL : List.lookup "status" (objProps kvs) with
    | none => simp [jlookup, hL, List.lookup]
    | some v => simp [jlookup, hL]
  · intro k hk
    rw [hd]
    show List.lookup k
      ((objProps kvs).foldl (fun acc p => setField acc p.1 p.2)
        [("status", Json.num st)]) = _
    rw [lookup_foldl_setField (objProps kvs) [("status", Json.num st)] k
      (nodup_keys_objProps kvs)]
    have hb2 : (k == "status") = false := by simp [hk]
    cases hL : List.lookup k (objProps kvs) with
    | none => simp [jlookup, hL, List.lookup, hb2]
    | some v => simp [jlookup, hL]

/-- C2 witness: an unmapped 418 status with server details lacking a
status key yields merged details whose status is the HTTP status 418 and
whose other keys keep their server values. -/
theorem classifier_api_error_merge_witness :
    ∃ (e : CobblError) (merged : List (String × Json)),
      handleErrorResponse ⟨418, "Teapot",
        Except.ok (Json.obj [("details", Json.obj [("extra", Json.str "x")])])⟩ = .cobbl e ∧
      e.code = CobblErrorCode.API_ERROR ∧
      e.details = some (Json.obj merged) ∧
      List.lookup "status" merged =
        some ((jlookup [("extra", Json.str "x")] "status").getD (Json.num 418)) ∧
      (∀ k, k ≠ "status" →
        List.lookup k merged = jlookup [("extra", Json.str "x")] k) :=
  classifier_api_error_merge ⟨418, "Teapot",
      Except.ok (Json.obj [("details", Json.obj [("extra", Json.str "x")])])⟩
    (Json.obj [("details", Json.obj [("extra", Json.str "x")])])
    [("extra", Json.str "x")] rfl rfl rfl

/-- C2 counterexample: with server details containing its own status
field (999), the raised details carries 999, not the response's HTTP
status 418 — the spread lets the server value override, so the claim
that the HTTP status is always present fails. -/
theorem classifier_api_error_merge_counterexample :
    handleErrorResponse ⟨418, "Teapot",
        Except.ok (Json.obj [("details", Json.obj [("status", Json.num 999)])])⟩ =
      .cobbl { message := "Unknown error"
               code := .API_ERROR
               details := some (Json.obj [("status", Json.num 999)]) } ∧
    Json.num 999 ≠ Json.num 418 :=
  ⟨by rfl, by intro h; injection h with h2; exact absurd h2 (by decide)⟩

/-! Client-level lemmas. -/

theorem beq_empty_or_trim (s : String) :
    ((s == "") || (jsTrim s == "")) = (jsTrim s == "") := by
  cases hs : s == "" with
  | true =>
      have h : s = "" := by simpa using hs
      subst h
      decide
  | false => simp

theorem isNetworkError_wrapCatch {α : Type} (op : String) (res : Except JsThrown α)
    (h : ∀ e : CobblError, res = .error (.cobbl e) → e.code ≠ .NETWORK_ERROR) :
    isNetworkError (wrapCatch op res) = true ↔
      ∃ th, res = .error th ∧ th.isTyped = false := by
  cases res with
  | ok v => simp [wrapCatch, isNetworkError]
  | error th =>
      cases th with
      | cobbl e => simp [wrapCatch, isNetworkError, h e rfl, JsThrown.isTyped]
      | jsError m => simp [wrapCatch, isNetworkError, JsThrown.isTyped]
      | other => simp [wrapCatch, isNetworkError, JsThrown.isTyped]

theorem runPromptTry_no_typed_network (t : TransportResult)
    (ht : t.fetchRealistic = true) :
    ∀ e : CobblError, runPromptTry t = .error (.cobbl e) →
      e.code ≠ .NETWORK_ERROR := by
  intro e h
  cases t with
  | fail th =>
      simp only [runPromptTry, Except.error.injEq] at h
      subst h
      simp [TransportResult.fetchRealistic, JsThrown.isTyped] at ht
  | ok r =>
      simp only [runPromptTry] at h
      cases hok : r.isOk with
      | true =>
          rw [hok] at h
          simp only [if_true] at h
          cases hb : r.body with
          | error m => rw [hb] at h; simp at h
          | ok j =>
              rw [hb] at h
              cases j <;> simp at h
      | false =>
          rw [hok] at h
          simp only [Bool.false_eq_true, if_false, Except.error.injEq] at h
          exact handleErrorResponse_cobbl_code r e h

theorem feedbackTry_no_typed_network (t : TransportResult)
    (ht : t.fetchRealistic = true) :
    ∀ e : CobblError, feedbackTry t = .error (.cobbl e) →
      e.code ≠ .NETWORK_ERROR := by
  intro e h
  cases t with
  | fail th =>
      simp only [feedbackTry, Except.error.injEq] at h
      subst h
      simp [TransportResult.fetchRealistic, JsThrown.isTyped] at ht
  | ok r =>
      simp only [feedbackTry] at h
      cases hok : r.isOk with
      | true =>
          rw [hok] at h
          simp only [if_true] at h
          cases hb : r.body with
          | error m => rw [hb] at h; simp at h
          | ok j =>
              rw [hb] at h
              cases j <;> simp at h
      | false =>
          rw [hok] at h
          simp only [Bool.false_eq_true, if_false, Except.error.injEq] at h
          exact handleErrorResponse_cobbl_code r e h

/-- C4 (amended): for each of the three client methods, a call that
passes validation yields an error with code NETWORK_ERROR exactly when
the request phase threw a value that was not already a CobblError.
Every (realistic) transport failure is such a value, but so is the JSON
parse failure of a successful response body — so a real server response
can still surface as NETWORK_ERROR (see the counterexample). -/
theorem network_error_classification :
    ∀ t : TransportResult, t.fetchRealistic = true →
      (∀ (c : CobblAdminClient) (slug : Option String) (input : Json),
        (jsStrFalsy slug || jsTrim (slug.getD "") == "") = false →
        (isNetworkError (c.runPrompt slug input t).2 = true ↔
          ∃ th, runPromptTry t = .error th ∧ th.isTyped = false)) ∧
      (∀ (c : CobblPublicClient) (f : CreateFeedbackRequest),
        validateCreateFeedback f = none →
        (isNetworkError (c.createFeedback f t).2 = true ↔
          ∃ th, feedbackTry t = .error th ∧ th.isTyped = false)) ∧
      (∀ (c : CobblPublicClient) (id : Option String) (u : UpdateFeedbackRequest),
        (jsStrFalsy id || jsTrim (id.getD "") == "") = false →
        validateUpdateFeedback u = none →
        (isNetworkError (c.updateFeedback id u t).2 = true ↔
          ∃ th, feedbackTry t = .error th ∧ th.isTyped = false)) := by
  intro t ht
  refine ⟨?_, ?_, ?_⟩
  · intro c slug input hv
    have h2 : (c.runPrompt slug input t).2 = wrapCatch "run prompt" (runPromptTry t) := by
      simp [CobblAdminClient.runPrompt, hv]
    rw [h2]
    exact isNetworkError_wrapCatch _ _ (runPromptTry_no_typed_network t ht)
  · intro c f hv
    have h2 : (c.createFeedback f t).2 = wrapCatch "create feedback" (feedbackTry t) := by
      simp [CobblPublicClient.createFeedback, hv]
    rw [h2]
    exact isNetworkError_wrapCatch _ _ (feedbackTry_no_typed_network t ht)
  · intro c id u hid hv
    have h2 : (c.updateFeedback id u t).2 = wrapCatch "update feedback" (feedbackTry t) := by
      simp [CobblPublicClient.updateFeedback, hid, hv]
    rw [h2]
    exact isNetworkError_wrapCatch _ _ (feedbackTry_no_typed_network t ht)

/-- C4 witness: a rejected transport call with message Network failure
yields code NETWORK_ERROR. -/
theorem network_error_classification_witness :
    isNetworkError ((⟨"key", defaultBaseUrl⟩ : CobblAdminClient).runPrompt (some "test")
        (Json.obj []) (.fail (.jsError "Network failure"))).2 = true :=
  ((network_error_classification (.fail (.jsError "Network failure")) rfl).1
    (⟨"key", defaultBaseUrl⟩ : CobblAdminClient) (some "test") (Json.obj []) rfl).mpr
    ⟨.jsError "Network failure", rfl, rfl⟩

/-- C4 counterexample: the server returns an actual 200 response whose
body fails to parse; the SyntaxError from response.json() is wrapped as
NETWORK_ERROR, refuting that NETWORK_ERROR never arises from a real
response. -/
theorem network_error_real_response_counterexample :
    ((⟨"key", defaultBaseUrl⟩ : CobblAdminClient).runPrompt (some "test") (Json.obj [])
        (.ok ⟨200, "OK", Except.error "Unexpected token"⟩)).2 =
      .error { message := "Failed to run prompt: Unexpected token"
               code := .NETWORK_ERROR } := by rfl

/-- C5: the shared catch clause re-raises a CobblError unchanged, wraps
a standard Error once as NETWORK_ERROR with message Failed to operation
followed by the underlying message, wraps a non-Error thrown value with
Unknown error in place of the message; and each client method routes its
request phase through this clause with its operation label: run prompt,
create feedback, update feedback. -/
theorem typed_passthrough_and_wrap :
    (∀ (α : Type) (op : String) (e : CobblError),
      @wrapCatch α op (.error (.cobbl e)) = .error e) ∧
    (∀ (α : Type) (op m : String),
      @wrapCatch α op (.error (.jsError m)) =
        .error { message := "Failed to " ++ op ++ ": " ++ m
                 code := .NETWORK_ERROR }) ∧
    (∀ (α : Type) (op : String),
      @wrapCatch α op (.error .other) =
        .error { message := "Failed to " ++ op ++ ": Unknown error"
                 code := .NETWORK_ERROR }) ∧
    (∀ (c : CobblAdminClient) (slug : Option String) (input : Json) (t : TransportResult),
      (jsStrFalsy slug || jsTrim (slug.getD "") == "") = false →
      (c.runPrompt slug input t).2 = wrapCatch "run prompt" (runPromptTry t)) ∧
    (∀ (c : CobblPublicClient) (f : CreateFeedbackRequest) (t : TransportResult),
      validateCreateFeedback f = none →
      (c.createFeedback f t).2 = wrapCatch "create feedback" (feedbackTry t)) ∧
    (∀ (c : CobblPublicClient) (id : Option String) (u : UpdateFeedbackRequest)
        (t : TransportResult),
      (jsStrFalsy id || jsTrim (id.getD "") == "") = false →
      validateUpdateFeedback u = none →
      (c.updateFeedback id u t).2 = wrapCatch "update feedback" (feedbackTry t)) := by
  refine ⟨fun α op e => rfl, fun α op m => rfl, fun α op => rfl, ?_, ?_, ?_⟩
  · intro c slug input t hv
    simp [CobblAdminClient.runPrompt, hv]
  · intro c f t hv
    simp [CobblPublicClient.createFeedback, hv]
  · intro c id u t hid hv
    simp [CobblPublicClient.updateFeedback, hid, hv]

/-- C5 witness: an already-typed FORBIDDEN error thrown in the request
phase of createFeedback passes through unchanged, not re-wrapped. -/
theorem typed_passthrough_and_wrap_witness :
    ((CobblPublicClient.make ⟨none⟩).createFeedback
        ⟨some "run-123", some "helpful", none⟩
        (.fail (.cobbl { message := "already typed", code := .FORBIDDEN }))).2 =
      .error { message := "already typed", code := .FORBIDDEN } := by
  have h := typed_passthrough_and_wrap.2.2.2.2.1 (CobblPublicClient.make ⟨none⟩)
    ⟨some "run-123", some "helpful", none⟩
    (.fail (.cobbl { message := "already typed", code := .FORBIDDEN })) rfl
  rw [h]
  exact typed_passthrough_and_wrap.1 FeedbackResponse "create feedback"
    { message := "already typed", code := .FORBIDDEN }

/-- C7: validateCreateFeedback returns exactly what the four ordered
rules of the claim prescribe: null when no rule is violated, otherwise
the reason string of the first violated rule in the fixed order (runId
presence, helpful validity, userFeedback blankness, at-least-one). -/
theorem validateCreateFeedback_matches_spec :
    ∀ f : CreateFeedbackRequest,
      validateCreateFeedback f = specValidateCreateFeedback f := by
  intro f
  obtain ⟨rid, hel, uf⟩ := f
  cases rid with
  | none => rfl
  | some s =>
      unfold validateCreateFeedback specValidateCreateFeedback
      simp only [jsStrFalsy, Option.getD, Option.isNone, beq_empty_or_trim,
        VALID_HELPFUL_VALUES, List.contains, List.elem, Bool.or_false]
      cases hel with
      | none => rfl
      | some h =>
          cases hc1 : h == "helpful" <;> cases hc2 : h == "not_helpful" <;>
            simp [hc1, hc2]

/-- C8: every validation failure is surfaced as INVALID_REQUEST with the
validator's reason string while the request component stays none — no
HTTP request is issued, whatever the transport would have answered. -/
theorem validation_precedes_network :
    (∀ (c : CobblAdminClient) (slug : Option String) (input : Json) (t : TransportResult),
      (jsStrFalsy slug || jsTrim (slug.getD "") == "") = true →
      c.runPrompt slug input t =
        (none, .error { message := "promptSlug is required", code := .INVALID_REQUEST })) ∧
    (∀ (c : CobblPublicClient) (f : CreateFeedbackRequest) (t : TransportResult) (m : String),
      validateCreateFeedback f = some m →
      c.createFeedback f t = (none, .error { message := m, code := .INVALID_REQUEST })) ∧
    (∀ (c : CobblPublicClient) (id : Option String) (u : UpdateFeedbackRequest)
        (t : TransportResult),
      (jsStrFalsy id || jsTrim (id.getD "") == "") = true →
      c.updateFeedback id u t =
        (none, .error { message := "id is required", code := .INVALID_REQUEST })) ∧
    (∀ (c : CobblPublicClient) (id : Option String) (u : UpdateFeedbackRequest)
        (t : TransportResult) (m : String),
      (jsStrFalsy id || jsTrim (id.getD "") == "") = false →
      validateUpdateFeedback u = some m →
      c.updateFeedback id u t = (none, .error { message := m, code := .INVALID_REQUEST })) := by
  refine ⟨?_, ?_, ?_, ?_⟩
  · intro c slug input t hv
    simp [CobblAdminClient.runPrompt, hv]
  · intro c f t m hv
    simp [CobblPublicClient.createFeedback, hv]
  · intro c id u t hid
    simp [CobblPublicClient.updateFeedback, hid]
  · intro c id u t m hid hv
    simp [CobblPublicClient.updateFeedback, hid, hv]

/-- C8 witness: updateFeedback with a blank id fails with id is required
and issues no request; createFeedback missing runId likewise. -/
theorem validation_precedes_network_witness :
    (CobblPublicClient.make ⟨none⟩).updateFeedback (some "") ⟨some "helpful", none⟩
        (.fail .other) =
      (none, .error { message := "id is required", code := .INVALID_REQUEST }) ∧
    (CobblPublicClient.make ⟨none⟩).createFeedback ⟨none, none, none⟩ (.fail .other) =
      (none, .error { message := "runId is required", code := .INVALID_REQUEST }) :=
  ⟨validation_precedes_network.2.2.1 (CobblPublicClient.make ⟨none⟩) (some "")
      ⟨some "helpful", none⟩ (.fail .other) rfl,
   validation_precedes_network.2.1 (CobblPublicClient.make ⟨none⟩) ⟨none, none, none⟩
      (.fail .other) "runId is required" rfl⟩

/-- C9: for a feedback request that passes validation, the serialized
body holds exactly the provided fields — runId trimmed, helpful passed
through, userFeedback trimmed — and a field absent in the input has no
key at all in the body (JSON.stringify drops undefined values).  The
updateFeedback body is the same minus runId. -/
theorem serialized_body_fields :
    (∀ (c : CobblPublicClient) (f : CreateFeedbackRequest) (t : TransportResult),
      validateCreateFeedback f = none →
      ∃ req : HttpRequest, (c.createFeedback f t).1 = some req ∧
        req.body = Json.obj
          ([("runId", Json.str (jsTrim (f.runId.getD "")))] ++
           (match f.helpful with
            | some h => [("helpful", Json.str h)]
            | none => []) ++
           (match f.userFeedback with
            | some u => [("userFeedback", Json.str (jsTrim u))]
            | none => []))) ∧
    (∀ (c : CobblPublicClient) (id : Option String) (u2 : UpdateFeedbackRequest)
        (t : TransportResult),
      (jsStrFalsy id || jsTrim (id.getD "") == "") = false →
      validateUpdateFeedback u2 = none →
      ∃ req : HttpRequest, (c.updateFeedback id u2 t).1 = some req ∧
        req.body = Json.obj
          ((match u2.helpful with
            | some h => [("helpful", Json.str h)]
            | none => []) ++
           (match u2.userFeedback with
            | some u => [("userFeedback", Json.str (jsTrim u))]
            | none => []))) := by
  constructor
  · intro c f t hv
    refine ⟨c.requestFor "/public/v1/feedback" "POST"
      (Json.obj (stringifyFields
        [("runId", some (Json.str (jsTrim (f.runId.getD "")))),
         ("helpful", f.helpful.map Json.str),
         ("userFeedback", (f.userFeedback.map jsTrim).map Json.str)])), ?_, ?_⟩
    · simp [CobblPublicClient.createFeedback, hv]
    · show Json.obj _ = Json.obj _
      obtain ⟨rid, hel, uf⟩ := f
      cases hel <;> cases uf <;> simp [stringifyFields]
  · intro c id u2 t hid hv
    refine ⟨c.requestFor ("/public/v1/feedback/" ++ jsTrim (id.getD "")) "PATCH"
      (Json.obj (stringifyFields
        [("helpful", u2.helpful.map Json.str),
         ("userFeedback", (u2.userFeedback.map jsTrim).map Json.str)])), ?_, ?_⟩
    · simp [CobblPublicClient.updateFeedback, hid, hv]
    · show Json.obj _ = Json.obj _
      obtain ⟨hel, uf⟩ := u2
      cases hel <;> cases uf <;> simp [stringifyFields]

/-- C9 witness: createFeedback with runId and helpful only sends a body
whose keys are exactly runId and helpful — no userFeedback key. -/
theorem serialized_body_fields_witness :
    ∃ req : HttpRequest,
      ((CobblPublicClient.make ⟨none⟩).createFeedback
        ⟨some "run-123", some "not_helpful", none⟩ (.fail .other)).1 = some req ∧
      req.body = Json.obj [("runId", Json.str "run-123"),
                           ("helpful", Json.str "not_helpful")] :=
  serialized_body_fields.1 (CobblPublicClient.make ⟨none⟩)
    ⟨some "run-123", some "not_helpful", none⟩ (.fail .other) rfl

/-- C10: a config whose apiKey is non-blank after trimming is accepted —
the trim is for the blank check only — and every runPrompt request then
carries the Authorization header Bearer plus the apiKey exactly as
given, whitespace included. -/
theorem api_key_sent_verbatim :
    ∀ (k : String) (bu : Option String), (jsTrim k == "") = false →
      ∃ c : CobblAdminClient, CobblAdminClient.make ⟨some k, bu⟩ = .ok c ∧
        c.apiKey = k ∧
        (∀ (slug : Option String) (input : Json) (t : TransportResult),
          (jsStrFalsy slug || jsTrim (slug.getD "") == "") = false →
          ∃ req : HttpRequest, (c.runPrompt slug input t).1 = some req ∧
            List.lookup "Authorization" req.headers = some ("Bearer " ++ k)) := by
  intro k bu hk
  have hne : jsTrim k ≠ "" := by simpa using hk
  have hk0 : k ≠ "" := by
    intro h
    subst h
    exact hne (by decide)
  refine ⟨⟨k, resolveBaseUrl bu⟩, ?_, rfl, ?_⟩
  · simp [CobblAdminClient.make, jsStrFalsy, hk0, hne]
  · intro slug input t hv
    refine ⟨(⟨k, resolveBaseUrl bu⟩ : CobblAdminClient).requestFor "/admin/v1/prompt/run"
      "POST" (Json.obj [("promptSlug", Json.str (jsTrim (slug.getD ""))),
                        ("input", input)]), ?_, ?_⟩
    · simp [CobblAdminClient.runPrompt, hv]
    · rfl

/-- C10 witness: an apiKey with surrounding whitespace is accepted and
sent verbatim in the Authorization header of a runPrompt request. -/
theorem api_key_sent_verbatim_witness :
    ∃ req : HttpRequest,
      ((⟨"  secret  ", defaultBaseUrl⟩ : CobblAdminClient).runPrompt
        (some "sales_summary") (Json.obj []) (.fail .other)).1 = some req ∧
      List.lookup "Authorization" req.headers = some ("Bearer " ++ "  secret  ") := by
  obtain ⟨c, hmk, hkey, hreq⟩ := api_key_sent_verbatim "  secret  " none (by decide)
  have hc : c = (⟨"  secret  ", defaultBaseUrl⟩ : CobblAdminClient) := by
    have heval : CobblAdminClient.make ⟨some "  secret  ", none⟩ =
        .ok (⟨"  secret  ", defaultBaseUrl⟩ : CobblAdminClient) := by rfl
    rw [heval] at hmk
    injection hmk with h
    exact h.symm
  subst hc
  exact hreq (some "sales_summary") (Json.obj []) (.fail .other) rfl


end Cobbl
